import Mathlib

/-!
Shallow embedding of `src/row.rs` from `egui_ltreeview`: the row layout
engine (`Row::draw_row`), the drag overlay renderer (`Row::draw_row_dragged`)
and the drop-target classifier (`DropQuarter::new`).

Scalar coordinates (`f32` in the source) are modelled as `ℚ`: every
operation the code performs on them (addition, subtraction, negation,
halving, comparison) is exact on the rational inputs considered here, so
the band boundaries and rectangle arithmetic carry over faithfully.
-/

namespace EguiLtreeview

/-- 2D vector, modelling `egui::Vec2` / `egui::Pos2` (the code only adds,
subtracts and negates them componentwise). -/
structure Vec2 where
  x : ℚ
  y : ℚ
deriving DecidableEq, Repr

namespace Vec2

/-- `Vec2::ZERO`. -/
def ZERO : Vec2 := ⟨0, 0⟩

instance : Add Vec2 := ⟨fun a b => ⟨a.x + b.x, a.y + b.y⟩⟩
instance : Sub Vec2 := ⟨fun a b => ⟨a.x - b.x, a.y - b.y⟩⟩
instance : Neg Vec2 := ⟨fun a => ⟨-a.x, -a.y⟩⟩

theorem add_def (a b : Vec2) : a + b = ⟨a.x + b.x, a.y + b.y⟩ := rfl
theorem sub_def (a b : Vec2) : a - b = ⟨a.x - b.x, a.y - b.y⟩ := rfl
theorem neg_def (a : Vec2) : -a = ⟨-a.x, -a.y⟩ := rfl

end Vec2

/-- Axis-aligned rectangle, modelling `egui::Rect` as min/max corners. -/
structure Rect where
  min : Vec2
  max : Vec2
deriving DecidableEq, Repr

namespace Rect

/-- `Rect::from_min_size`. -/
def from_min_size (min : Vec2) (size : Vec2) : Rect :=
  ⟨min, min + size⟩

/-- `Rect::expand2(amnt)`: grow by `amnt` on each side. -/
def expand2 (r : Rect) (amnt : Vec2) : Rect :=
  ⟨r.min - amnt, r.max + amnt⟩

/-- `Rect::height`. -/
def height (r : Rect) : ℚ := r.max.y - r.min.y

end Rect

/-- `egui::Rangef`: an inclusive scalar range. -/
structure Rangef where
  min : ℚ
  max : ℚ
deriving DecidableEq, Repr

/-- The four drop bands of `DropQuarter`. -/
inductive DropQuarter where
  | Top
  | MiddleTop
  | MiddleBottom
  | Bottom
deriving DecidableEq, Repr

namespace DropQuarter

/-- `DROP_LINE_HOVER_HEIGHT` from `DropQuarter::new`. -/
def DROP_LINE_HOVER_HEIGHT : ℚ := 5

/-- `DropQuarter::new(range, cursor_pos)`: the guards are evaluated in
source order (`Top`, `MiddleTop`, `MiddleBottom`, `Bottom`, else `None`). -/
def new (range : Rangef) (cursor_pos : ℚ) : Option DropQuarter :=
  let h0 := range.min
  let h1 := range.min + DROP_LINE_HOVER_HEIGHT
  let h2 := (range.min + range.max) / 2
  let h3 := range.max - DROP_LINE_HOVER_HEIGHT
  let h4 := range.max
  if h0 ≤ cursor_pos ∧ cursor_pos < h1 then some .Top
  else if h1 ≤ cursor_pos ∧ cursor_pos < h2 then some .MiddleTop
  else if h2 ≤ cursor_pos ∧ cursor_pos < h3 then some .MiddleBottom
  else if h3 ≤ cursor_pos ∧ cursor_pos < h4 then some .Bottom
  else none

end DropQuarter

/-- `crate::RowLayout`: the four layout policies (source spelling kept,
including the `CompactAlignedLables` typo). -/
inductive RowLayout where
  | Compact
  | CompactAlignedLables
  | AlignedIcons
  | AlignedIconsAndLabels
deriving DecidableEq, Repr

/-- The part of `crate::TreeViewSettings` this file reads. -/
structure TreeViewSettings where
  row_layout : RowLayout
deriving DecidableEq, Repr

/-- `Row<NodeIdType>`: per-node per-frame state. The opaque `id` only feeds
the host toolkit's animation key and is dropped here. -/
structure Row where
  depth : ℚ
  drop_on_allowed : Bool
  is_open : Bool
  is_dir : Bool
deriving DecidableEq, Repr

/-- The four layout bits `draw_row` destructures from its policy `match`
(`src/row.rs:85-95`). -/
structure LayoutFlags where
  reserve_closer : Bool
  draw_closer : Bool
  reserve_icon : Bool
  draw_icon : Bool
deriving DecidableEq, Repr

/-- The `match settings.row_layout` at the top of `Row::draw_row`;
`icon_present` is `add_icon.is_some()`. -/
def rowFlags (settings : TreeViewSettings) (is_dir : Bool) (icon_present : Bool) :
    LayoutFlags :=
  match settings.row_layout with
  | .Compact => ⟨is_dir, is_dir, false, false⟩
  | .CompactAlignedLables => ⟨is_dir, is_dir, !is_dir, !is_dir && icon_present⟩
  | .AlignedIcons => ⟨true, is_dir, icon_present, icon_present⟩
  | .AlignedIconsAndLabels => ⟨true, is_dir, true, icon_present⟩

/-- The host-toolkit inputs `draw_row` reads from the `Ui`: the cursor
position when the horizontal row starts, the spacing configuration, the
size the opaque label callback consumes, and the remaining width consumed
by the final `add_space(available_width)`.  Inside `ui.horizontal` the
cursor's `y` stays at `origin.y`, so slot positions are tracked by their
`x` coordinate. -/
structure UiCtx where
  origin : Vec2
  icon_width : ℚ
  item_spacing_y : ℚ
  label_size : Vec2
  available_width : ℚ

namespace UiCtx

/-- `ui.cursor().min` recorded for the closer slot: the horizontal cursor
after `add_space(depth)` (`src/row.rs:101-105`). -/
def closer_pos_x (ctx : UiCtx) (row : Row) : ℚ :=
  ctx.origin.x + row.depth

/-- `ui.cursor().min` recorded for the icon slot: after reserving the
closer slot when `reserve_closer` (`src/row.rs:106-110`). -/
def icon_pos_x (ctx : UiCtx) (row : Row) (reserve_closer : Bool) : ℚ :=
  ctx.closer_pos_x row + (if reserve_closer then ctx.icon_width else 0)

/-- `ui.cursor().min` recorded for the label slot: after reserving the
icon slot when `reserve_icon` (`src/row.rs:111-115`). -/
def label_pos_x (ctx : UiCtx) (row : Row) (reserve_closer reserve_icon : Bool) : ℚ :=
  ctx.icon_pos_x row reserve_closer + (if reserve_icon then ctx.icon_width else 0)

end UiCtx

/-- The inner `row_response.rect` produced by the `ui.horizontal` closure:
it starts at the cursor origin and spans the depth indent, the reserved
slots, the label and the consumed remaining width, at the label's height. -/
def row_rect (ctx : UiCtx) (row : Row) (reserve_closer reserve_icon : Bool) : Rect :=
  Rect.from_min_size ctx.origin
    ⟨ctx.label_pos_x row reserve_closer reserve_icon - ctx.origin.x
        + ctx.label_size.x + ctx.available_width,
      ctx.label_size.y⟩

/-- Result triple of `Row::draw_row`. -/
structure DrawRowOutput where
  background_response : Rect
  closer_response : Option Rect
  label_rect : Rect
deriving DecidableEq, Repr

/-- `Row::draw_row` (`src/row.rs:78-168`), with the host toolkit's painting
stripped: it computes the layout flags, records the three slot positions
while advancing the cursor, allocates the closer's interactive rectangle at
the recorded closer slot iff `draw_closer` (the `icon_rectangles` small-rect
refinement is host-toolkit internal; the slot rectangle is recorded),
expands the row rectangle by half the vertical item spacing into the
background, and re-bases the background's left edge onto the left-most
drawn slot for `label_rect`. -/
def draw_row (row : Row) (settings : TreeViewSettings) (icon_present : Bool)
    (ctx : UiCtx) : DrawRowOutput :=
  let flags := rowFlags settings row.is_dir icon_present
  let closer_pos := ctx.closer_pos_x row
  let icon_pos := ctx.icon_pos_x row flags.reserve_closer
  let label_pos := ctx.label_pos_x row flags.reserve_closer flags.reserve_icon
  let rowRect := row_rect ctx row flags.reserve_closer flags.reserve_icon
  let closer_response : Option Rect :=
    if flags.draw_closer then
      some (Rect.from_min_size ⟨closer_pos, ctx.origin.y⟩
        ⟨ctx.icon_width, ctx.label_size.y⟩)
    else none
  let label_rect_min : ℚ :=
    if flags.draw_closer then closer_pos
    else if flags.draw_icon then icon_pos
    else label_pos
  let background_rect := rowRect.expand2 ⟨0, ctx.item_spacing_y * (1/2)⟩
  let label_rect : Rect := ⟨⟨label_rect_min, background_rect.min.y⟩, background_rect.max⟩
  ⟨background_rect, closer_response, label_rect⟩

/-- The host-toolkit inputs and persistent-store state `draw_row_dragged`
reads on one frame: whether a primary-button drag started on the row this
frame, the two pointer readings, the value currently persisted under the
"Drag source" key, the dragged row's rectangle origin, and the origin of
the rectangle the overlay layer painted the row at. -/
structure DragCtx where
  drag_started : Bool
  pointer_latest_pos : Option Vec2
  pointer_interact_pos : Option Vec2
  stored_offset : Option Vec2
  row_rect_min : Vec2
  background_rect_min : Vec2

/-- Observable effects of `Row::draw_row_dragged` on one frame: its return
value, the persisted "Drag source" entry after the call, and the layer
translation applied (none when the interact pointer is unavailable). -/
structure DragOutput where
  result : Bool
  store_after : Option Vec2
  translation : Option Vec2
deriving DecidableEq, Repr

/-- `Row::draw_row_dragged` (`src/row.rs:21-76`), with painting stripped:
on a drag-start frame it computes `row_rect.min - pointer_latest_pos`
(zero if the pointer is unavailable) and stores it; otherwise it loads the
stored offset, defaulting to zero.  If the interact pointer is available
the overlay layer is translated by
`-background_rect.min + pointer_pos + drag_offset`; the function always
returns `true`. -/
def draw_row_dragged (c : DragCtx) : DragOutput :=
  let drag_offset :=
    if c.drag_started then
      (c.pointer_latest_pos.map (fun p => c.row_rect_min - p)).getD Vec2.ZERO
    else
      c.stored_offset.getD Vec2.ZERO
  let store_after :=
    if c.drag_started then some drag_offset else c.stored_offset
  let translation :=
    c.pointer_interact_pos.map (fun p => -c.background_rect_min + p + drag_offset)
  ⟨true, store_after, translation⟩

/-! ## Band characterizations of `DropQuarter.new` -/

theorem dq_top_iff (r : Rangef) (y : ℚ) :
    DropQuarter.new r y = some DropQuarter.Top ↔ r.min ≤ y ∧ y < r.min + 5 := by
  simp only [DropQuarter.new, DropQuarter.DROP_LINE_HOVER_HEIGHT]
  split_ifs with g1 g2 g3 g4 <;> simp_all

theorem dq_middleTop_iff (r : Rangef) (y : ℚ) :
    DropQuarter.new r y = some DropQuarter.MiddleTop ↔
      r.min + 5 ≤ y ∧ y < (r.min + r.max) / 2 := by
  simp only [DropQuarter.new, DropQuarter.DROP_LINE_HOVER_HEIGHT]
  split_ifs with g1 g2 g3 g4
  · exact iff_of_false (fun h => DropQuarter.noConfusion (Option.some.inj h))
      (fun hc => absurd hc.1 (not_le.mpr g1.2))
  · exact iff_of_true rfl g2
  · exact iff_of_false (fun h => DropQuarter.noConfusion (Option.some.inj h))
      (fun hc => absurd hc.2 (not_lt.mpr g3.1))
  · exact iff_of_false (fun h => DropQuarter.noConfusion (Option.some.inj h))
      (fun hc => by linarith [hc.1, hc.2, g4.1])
  · exact iff_of_false (by simp) g2

theorem dq_middleBottom_iff (r : Rangef) (y : ℚ) :
    DropQuarter.new r y = some DropQuarter.MiddleBottom ↔
      (r.min + r.max) / 2 ≤ y ∧ y < r.max - 5 := by
  simp only [DropQuarter.new, DropQuarter.DROP_LINE_HOVER_HEIGHT]
  split_ifs with g1 g2 g3 g4
  · exact iff_of_false (fun h => DropQuarter.noConfusion (Option.some.inj h))
      (fun hc => by linarith [g1.1, g1.2, hc.1, hc.2])
  · exact iff_of_false (fun h => DropQuarter.noConfusion (Option.some.inj h))
      (fun hc => absurd hc.1 (not_le.mpr g2.2))
  · exact iff_of_true rfl g3
  · exact iff_of_false (fun h => DropQuarter.noConfusion (Option.some.inj h))
      (fun hc => absurd hc.2 (not_lt.mpr g4.1))
  · exact iff_of_false (by simp) g3

theorem dq_bottom_iff (r : Rangef) (y : ℚ) :
    DropQuarter.new r y = some DropQuarter.Bottom ↔
      (r.max - 5 ≤ y ∧ y < r.max) ∧ ¬(r.min ≤ y ∧ y < r.min + 5) := by
  simp only [DropQuarter.new, DropQuarter.DROP_LINE_HOVER_HEIGHT]
  split_ifs with g1 g2 g3 g4
  · exact iff_of_false (fun h => DropQuarter.noConfusion (Option.some.inj h))
      (fun hc => hc.2 g1)
  · exact iff_of_false (fun h => DropQuarter.noConfusion (Option.some.inj h))
      (fun hc => by linarith [g2.1, g2.2, hc.1.1])
  · exact iff_of_false (fun h => DropQuarter.noConfusion (Option.some.inj h))
      (fun hc => absurd hc.1.1 (not_le.mpr g3.2))
  · exact iff_of_true rfl ⟨⟨g4.1, g4.2⟩, g1⟩
  · exact iff_of_false (by simp) (fun hc => g4 hc.1)

/-! ## Claim theorems -/

/-- C2: `DropQuarter::new` returns `Top` exactly on `[min, min+5)`,
`MiddleTop` exactly on `[min+5, (min+max)/2)`, `MiddleBottom` exactly on
`[(min+max)/2, max-5)`, and — the guards being evaluated in source order,
so the `Top` guard wins on overlap — `Bottom` exactly on `[max-5, max)`
outside the `Top` band; in particular for the range `[0, 100]`: `0` and
`4.999` give `Top`, `5` and `49.999` give `MiddleTop`, `50` and `94.999`
give `MiddleBottom`, `95` and `99.999` give `Bottom`, and `100` gives
none. -/
theorem c2_dropQuarter_bands :
    (∀ (r : Rangef) (y : ℚ),
      (DropQuarter.new r y = some DropQuarter.Top ↔
        r.min ≤ y ∧ y < r.min + 5) ∧
      (DropQuarter.new r y = some DropQuarter.MiddleTop ↔
        r.min + 5 ≤ y ∧ y < (r.min + r.max) / 2) ∧
      (DropQuarter.new r y = some DropQuarter.MiddleBottom ↔
        (r.min + r.max) / 2 ≤ y ∧ y < r.max - 5) ∧
      (DropQuarter.new r y = some DropQuarter.Bottom ↔
        (r.max - 5 ≤ y ∧ y < r.max) ∧ ¬(r.min ≤ y ∧ y < r.min + 5))) ∧
    DropQuarter.new ⟨0, 100⟩ 0 = some DropQuarter.Top ∧
    DropQuarter.new ⟨0, 100⟩ (4999/1000) = some DropQuarter.Top ∧
    DropQuarter.new ⟨0, 100⟩ 5 = some DropQuarter.MiddleTop ∧
    DropQuarter.new ⟨0, 100⟩ (49999/1000) = some DropQuarter.MiddleTop ∧
    DropQuarter.new ⟨0, 100⟩ 50 = some DropQuarter.MiddleBottom ∧
    DropQuarter.new ⟨0, 100⟩ (94999/1000) = some DropQuarter.MiddleBottom ∧
    DropQuarter.new ⟨0, 100⟩ 95 = some DropQuarter.Bottom ∧
    DropQuarter.new ⟨0, 100⟩ (99999/1000) = some DropQuarter.Bottom ∧
    DropQuarter.new ⟨0, 100⟩ 100 = none :=
  ⟨fun r y =>
      ⟨dq_top_iff r y, dq_middleTop_iff r y, dq_middleBottom_iff r y,
        dq_bottom_iff r y⟩,
    by simp only [DropQuarter.new, DropQuarter.DROP_LINE_HOVER_HEIGHT]; norm_num,
    by simp only [DropQuarter.new, DropQuarter.DROP_LINE_HOVER_HEIGHT]; norm_num,
    by simp only [DropQuarter.new, DropQuarter.DROP_LINE_HOVER_HEIGHT]; norm_num,
    by simp only [DropQuarter.new, DropQuarter.DROP_LINE_HOVER_HEIGHT]; norm_num,
    by simp only [DropQuarter.new, DropQuarter.DROP_LINE_HOVER_HEIGHT]; norm_num,
    by simp only [DropQuarter.new, DropQuarter.DROP_LINE_HOVER_HEIGHT]; norm_num,
    by simp only [DropQuarter.new, DropQuarter.DROP_LINE_HOVER_HEIGHT]; norm_num,
    by simp only [DropQuarter.new, DropQuarter.DROP_LINE_HOVER_HEIGHT]; norm_num,
    by simp only [DropQuarter.new, DropQuarter.DROP_LINE_HOVER_HEIGHT]; norm_num⟩

/-- C3 counterexample: the claim says any `cursor_pos < min` yields none
whenever `min < max`, but for the range `[0, 3]` (shorter than the 5-unit
hover band) the `Bottom` guard `max - 5 ≤ y < max` already matches at
`y = -1`, which lies below `min`. -/
theorem c3_counterexample :
    (0 : ℚ) < 3 ∧ (-1 : ℚ) < 0 ∧
      DropQuarter.new ⟨0, 3⟩ (-1) = some DropQuarter.Bottom := by
  refine ⟨by norm_num, by norm_num, ?_⟩
  simp only [DropQuarter.new, DropQuarter.DROP_LINE_HOVER_HEIGHT]
  norm_num

/-- C3 (amended): for every range with `min < max` and `min + 5 ≤ max`
(so the bands cannot spill past the range ends), every `cursor_pos` in
`[min, max)` yields a classification and every `cursor_pos` outside
`[min, max)` yields none. -/
theorem c3_partition (r : Rangef) (y : ℚ) (_hlt : r.min < r.max)
    (hsz : r.min + 5 ≤ r.max) :
    (r.min ≤ y ∧ y < r.max → (DropQuarter.new r y).isSome = true) ∧
    (y < r.min ∨ r.max ≤ y → DropQuarter.new r y = none) := by
  constructor
  · rintro ⟨a, b⟩
    simp only [DropQuarter.new, DropQuarter.DROP_LINE_HOVER_HEIGHT]
    split_ifs with g1 g2 g3 g4 <;> try rfl
    push_neg at g1 g2 g3 g4
    linarith [g1 a, g2 (g1 a), g3 (g2 (g1 a)), g4 (g3 (g2 (g1 a)))]
  · intro h
    simp only [DropQuarter.new, DropQuarter.DROP_LINE_HOVER_HEIGHT]
    split_ifs with g1 g2 g3 g4
    · rcases h with h | h <;> rcases g1 with ⟨ga, gb⟩ <;> linarith
    · rcases h with h | h <;> rcases g2 with ⟨ga, gb⟩ <;> linarith
    · rcases h with h | h <;> rcases g3 with ⟨ga, gb⟩ <;> linarith
    · rcases h with h | h <;> rcases g4 with ⟨ga, gb⟩ <;> linarith
    · rfl

/-- Witness for `c3_partition` at range `[0, 100]`, cursor `50`. -/
theorem c3_partition_witness :
    ((0 : ℚ) < 100 ∧ (0 : ℚ) + 5 ≤ 100) ∧
    (((0 : ℚ) ≤ 50 ∧ (50 : ℚ) < 100 →
        (DropQuarter.new ⟨0, 100⟩ 50).isSome = true) ∧
      ((50 : ℚ) < 0 ∨ (100 : ℚ) ≤ 50 →
        DropQuarter.new ⟨0, 100⟩ 50 = none)) :=
  ⟨⟨by norm_num, by norm_num⟩,
    c3_partition ⟨0, 100⟩ 50 (by norm_num) (by norm_num)⟩

/-- C10: whenever `max - min ≤ 10`, the midpoint does not lie above
`min + 5` and `max - 5` does not lie above the midpoint, so both middle
bands are empty and `DropQuarter.new` never returns `MiddleTop` or
`MiddleBottom`. -/
theorem c10_short_range_no_middle (r : Rangef) (y : ℚ)
    (h : r.max - r.min ≤ 10) :
    (r.min + r.max) / 2 ≤ r.min + 5 ∧
    r.max - 5 ≤ (r.min + r.max) / 2 ∧
    DropQuarter.new r y ≠ some DropQuarter.MiddleTop ∧
    DropQuarter.new r y ≠ some DropQuarter.MiddleBottom := by
  refine ⟨by linarith, by linarith, ?_, ?_⟩
  · intro hmt
    obtain ⟨a, b⟩ := (dq_middleTop_iff r y).mp hmt
    linarith
  · intro hmb
    obtain ⟨a, b⟩ := (dq_middleBottom_iff r y).mp hmb
    linarith

/-- Witness for `c10_short_range_no_middle` at range `[0, 10]`, cursor `3`. -/
theorem c10_short_range_no_middle_witness :
    ((10 : ℚ) - 0 ≤ 10) ∧
    (((0 : ℚ) + 10) / 2 ≤ (0 : ℚ) + 5 ∧
      (10 : ℚ) - 5 ≤ ((0 : ℚ) + 10) / 2 ∧
      DropQuarter.new ⟨0, 10⟩ 3 ≠ some DropQuarter.MiddleTop ∧
      DropQuarter.new ⟨0, 10⟩ 3 ≠ some DropQuarter.MiddleBottom) :=
  ⟨by norm_num, c10_short_range_no_middle ⟨0, 10⟩ 3 (by norm_num)⟩

/-- C1: under every layout policy, every `is_dir` and every icon-callback
presence, `draw_row`'s `(reserve_closer, draw_closer, reserve_icon,
draw_icon)` flags match the policy table: `Compact` gives
`(is_dir, is_dir, false, false)`; `CompactAlignedLables` gives
`(is_dir, is_dir, !is_dir, !is_dir && icon_present)`; `AlignedIcons`
gives `(true, is_dir, icon_present, icon_present)`;
`AlignedIconsAndLabels` gives `(true, is_dir, true, icon_present)` —
covering all 16 `(policy, is_dir, icon_present)` combinations. -/
theorem c1_layout_flags_table :
    (∀ d i : Bool, rowFlags ⟨RowLayout.Compact⟩ d i = ⟨d, d, false, false⟩) ∧
    (∀ d i : Bool,
      rowFlags ⟨RowLayout.CompactAlignedLables⟩ d i = ⟨d, d, !d, !d && i⟩) ∧
    (∀ d i : Bool, rowFlags ⟨RowLayout.AlignedIcons⟩ d i = ⟨true, d, i, i⟩) ∧
    (∀ d i : Bool,
      rowFlags ⟨RowLayout.AlignedIconsAndLabels⟩ d i = ⟨true, d, true, i⟩) := by
  refine ⟨?_, ?_, ?_, ?_⟩ <;> decide

/-- C7: `draw_closer` equals `is_dir` under every policy (only the
reservation varies with the policy), and `draw_row` returns a
`closer_response` exactly when the closer was drawn. -/
theorem c7_closer_drawn_iff_is_dir (settings : TreeViewSettings) (row : Row)
    (icon_present : Bool) (ctx : UiCtx) :
    (rowFlags settings row.is_dir icon_present).draw_closer = row.is_dir ∧
    (draw_row row settings icon_present ctx).closer_response.isSome =
      (rowFlags settings row.is_dir icon_present).draw_closer := by
  obtain ⟨l⟩ := settings
  obtain ⟨dep, doa, iso, d⟩ := row
  cases l <;> cases d <;> cases icon_present <;>
    simp [draw_row, rowFlags]

/-- C5: for every row and policy, `draw_row`'s background rectangle keeps
the inner row rectangle's horizontal extent and is expanded vertically by
half the item spacing on each side, so its height is the inner height plus
the full item spacing. -/
theorem c5_background_expansion (row : Row) (settings : TreeViewSettings)
    (icon_present : Bool) (ctx : UiCtx) :
    (draw_row row settings icon_present ctx).background_response.min.x =
      (row_rect ctx row (rowFlags settings row.is_dir icon_present).reserve_closer
        (rowFlags settings row.is_dir icon_present).reserve_icon).min.x ∧
    (draw_row row settings icon_present ctx).background_response.max.x =
      (row_rect ctx row (rowFlags settings row.is_dir icon_present).reserve_closer
        (rowFlags settings row.is_dir icon_present).reserve_icon).max.x ∧
    (draw_row row settings icon_present ctx).background_response.min.y =
      (row_rect ctx row (rowFlags settings row.is_dir icon_present).reserve_closer
        (rowFlags settings row.is_dir icon_present).reserve_icon).min.y -
        ctx.item_spacing_y * (1/2) ∧
    (draw_row row settings icon_present ctx).background_response.max.y =
      (row_rect ctx row (rowFlags settings row.is_dir icon_present).reserve_closer
        (rowFlags settings row.is_dir icon_present).reserve_icon).max.y +
        ctx.item_spacing_y * (1/2) ∧
    (draw_row row settings icon_present ctx).background_response.height =
      (row_rect ctx row (rowFlags settings row.is_dir icon_present).reserve_closer
        (rowFlags settings row.is_dir icon_present).reserve_icon).height +
        ctx.item_spacing_y := by
  refine ⟨?_, ?_, ?_, ?_, ?_⟩ <;>
    simp [draw_row, Rect.expand2, Rect.height, Vec2.sub_def, Vec2.add_def] <;>
    ring

/-- C6: `draw_row`'s `label_rect` left edge is the closer slot's recorded
position when a closer is drawn, else the icon slot's recorded position
when an icon is drawn, else the label slot's recorded position; the three
cases are also checked on concrete rectangles (origin `(0,0)`, depth `10`,
icon width `20`). -/
theorem c6_label_rect_left_edge :
    (∀ (row : Row) (settings : TreeViewSettings) (icon_present : Bool)
        (ctx : UiCtx),
      (draw_row row settings icon_present ctx).label_rect.min.x =
        (if (rowFlags settings row.is_dir icon_present).draw_closer then
          ctx.closer_pos_x row
        else if (rowFlags settings row.is_dir icon_present).draw_icon then
          ctx.icon_pos_x row
            (rowFlags settings row.is_dir icon_present).reserve_closer
        else
          ctx.label_pos_x row
            (rowFlags settings row.is_dir icon_present).reserve_closer
            (rowFlags settings row.is_dir icon_present).reserve_icon)) ∧
    (draw_row ⟨10, false, false, true⟩ ⟨RowLayout.AlignedIcons⟩ false
        ⟨⟨0, 0⟩, 20, 4, ⟨30, 12⟩, 50⟩).label_rect.min.x = 10 ∧
    (draw_row ⟨10, false, false, false⟩ ⟨RowLayout.AlignedIcons⟩ true
        ⟨⟨0, 0⟩, 20, 4, ⟨30, 12⟩, 50⟩).label_rect.min.x = 30 ∧
    (draw_row ⟨10, false, false, false⟩ ⟨RowLayout.Compact⟩ false
        ⟨⟨0, 0⟩, 20, 4, ⟨30, 12⟩, 50⟩).label_rect.min.x = 10 := by
  refine ⟨?_, ?_, ?_, ?_⟩
  · intro row settings icon_present ctx
    simp only [draw_row]
  · simp [draw_row, rowFlags, UiCtx.closer_pos_x]
  · simp [draw_row, rowFlags, UiCtx.closer_pos_x, UiCtx.icon_pos_x]
    norm_num
  · simp [draw_row, rowFlags, UiCtx.closer_pos_x, UiCtx.icon_pos_x,
      UiCtx.label_pos_x]

/-- C4: on the drag-start frame, `draw_row_dragged` stores
`row_top_left - pointer_position` under the "Drag source" key (pointer
`(10,10)` and row top-left `(20,30)` store `(10,20)`); on a later frame of
the gesture with no new drag start, the applied layer translation is the
pointer position plus the *stored* offset minus the overlay rectangle's
own top-left origin. -/
theorem c4_drag_offset_roundtrip :
    (∀ (c : DragCtx) (p : Vec2),
      c.drag_started = true → c.pointer_latest_pos = some p →
      (draw_row_dragged c).store_after = some (c.row_rect_min - p)) ∧
    (∀ (c : DragCtx) (p off : Vec2),
      c.drag_started = false → c.stored_offset = some off →
      c.pointer_interact_pos = some p →
      (draw_row_dragged c).translation =
        some (p + off - c.background_rect_min)) ∧
    (∀ c : DragCtx,
      c.drag_started = true → c.pointer_latest_pos = some ⟨10, 10⟩ →
      c.row_rect_min = ⟨20, 30⟩ →
      (draw_row_dragged c).store_after = some ⟨10, 20⟩) := by
  refine ⟨?_, ?_, ?_⟩
  · intro c p h1 h2
    simp [draw_row_dragged, h1, h2]
  · intro c p off h1 h2 h3
    simp only [draw_row_dragged, h1, h2, h3, if_neg Bool.false_ne_true,
      Option.getD_some, Option.map_some, Option.some.injEq]
    simp [Vec2.add_def, Vec2.sub_def, Vec2.neg_def]
    constructor <;> ring
  · intro c h1 h2 h3
    simp [draw_row_dragged, h1, h2, h3, Vec2.sub_def]
    norm_num

/-- Witness for `c4_drag_offset_roundtrip`: a drag-start frame with
pointer `(10,10)` and row top-left `(20,30)`, and a later frame with
pointer `(50,50)`, stored offset `(10,20)` and overlay origin `(7,8)`. -/
theorem c4_drag_offset_roundtrip_witness :
    (draw_row_dragged
        ⟨true, some ⟨10, 10⟩, none, none, ⟨20, 30⟩, ⟨0, 0⟩⟩).store_after =
      some ⟨10, 20⟩ ∧
    (draw_row_dragged
        ⟨false, none, some ⟨50, 50⟩, some ⟨10, 20⟩, ⟨0, 0⟩, ⟨7, 8⟩⟩).translation =
      some ((⟨50, 50⟩ : Vec2) + ⟨10, 20⟩ - ⟨7, 8⟩) := by
  constructor
  · exact c4_drag_offset_roundtrip.2.2
      ⟨true, some ⟨10, 10⟩, none, none, ⟨20, 30⟩, ⟨0, 0⟩⟩ rfl rfl rfl
  · exact c4_drag_offset_roundtrip.2.1
      ⟨false, none, some ⟨50, 50⟩, some ⟨10, 20⟩, ⟨0, 0⟩, ⟨7, 8⟩⟩
      ⟨50, 50⟩ ⟨10, 20⟩ rfl rfl rfl

/-- C8: on a non-drag-start frame with no persisted offset, the offset
used is the zero vector, so the layer translation anchors the overlay
exactly at the pointer: it equals `pointer - overlay_origin`. -/
theorem c8_missing_offset_zero (c : DragCtx) (p : Vec2)
    (h1 : c.drag_started = false) (h2 : c.stored_offset = none)
    (h3 : c.pointer_interact_pos = some p) :
    (draw_row_dragged c).translation = some (p - c.background_rect_min) := by
  simp only [draw_row_dragged, h1, h2, h3, if_neg Bool.false_ne_true,
    Option.getD_none, Option.map_some, Option.some.injEq]
  simp [Vec2.add_def, Vec2.sub_def, Vec2.neg_def, Vec2.ZERO]
  constructor <;> ring

/-- Witness for `c8_missing_offset_zero`: pointer `(50,50)`, empty store,
overlay origin `(7,8)`. -/
theorem c8_missing_offset_zero_witness :
    (draw_row_dragged
        ⟨false, none, some ⟨50, 50⟩, none, ⟨0, 0⟩, ⟨7, 8⟩⟩).translation =
      some ((⟨50, 50⟩ : Vec2) - ⟨7, 8⟩) :=
  c8_missing_offset_zero ⟨false, none, some ⟨50, 50⟩, none, ⟨0, 0⟩, ⟨7, 8⟩⟩
    ⟨50, 50⟩ rfl rfl rfl

/-- C9: when the pointer interact position is unavailable,
`draw_row_dragged` applies no layer translation that frame and still
returns `true`. -/
theorem c9_missing_pointer_skips_translation (c : DragCtx)
    (h : c.pointer_interact_pos = none) :
    (draw_row_dragged c).translation = none ∧
    (draw_row_dragged c).result = true := by
  simp [draw_row_dragged, h]

/-- Witness for `c9_missing_pointer_skips_translation` on a frame with no
interact pointer. -/
theorem c9_missing_pointer_skips_translation_witness :
    (draw_row_dragged
        ⟨false, none, none, some ⟨1, 2⟩, ⟨0, 0⟩, ⟨3, 4⟩⟩).translation = none ∧
    (draw_row_dragged
        ⟨false, none, none, some ⟨1, 2⟩, ⟨0, 0⟩, ⟨3, 4⟩⟩).result = true :=
  c9_missing_pointer_skips_translation
    ⟨false, none, none, some ⟨1, 2⟩, ⟨0, 0⟩, ⟨3, 4⟩⟩ rfl

end EguiLtreeview
